import Mathlib

/-!
Verification of the `gemini-ask` CLI (src/cli/src/main.rs): a shallow
embedding of its data model, request builder, redirect resolver and
response renderer, together with theorems about the rendering pipeline.

External effects are modelled as explicit parameters:
 * the network behaviour of the single HEAD request issued by
   `resolve_redirect_url` is a function `String → HeadOutcome`;
 * the completion order of the concurrent redirect resolutions is a
   schedule `List Nat` fed to the model of `futures::future::join_all`;
 * the (fallible) `serde_json::to_string_pretty` call is a function
   `InteractionResponse → Except String String`, whose canonical
   instantiation `serde_to_string_pretty` is also defined here.
-/

namespace GeminiAsk

/-- Model identifier constant `MODEL` from the source. -/
def MODEL : String := "gemini-3-flash-preview"

/-- Substring marker tested by `resolve_redirect_url` via `url.contains`. -/
def redirect_marker : String := "vertexaisearch.cloud.google.com/grounding-api-redirect"

/-- Does `pat` occur as a prefix of `s`?  Char-list model of Rust
`str::starts_with` used to build the substring test. -/
def starts_with_list : List Char → List Char → Bool
  | _, [] => true
  | [], _ :: _ => false
  | c :: cs, p :: ps => (c == p) && starts_with_list cs ps

/-- Does `pat` occur as a contiguous substring of `s`?  Model of Rust
`str::contains` on char lists. -/
def contains_list : List Char → List Char → Bool
  | [], pat => pat.isEmpty
  | c :: rest, pat => starts_with_list (c :: rest) pat || contains_list rest pat

/-- Model of Rust `String::contains` for a string pattern. -/
def str_contains (s pat : String) : Bool :=
  contains_list s.toList pat.toList

/-- `--output` format flag. -/
inductive OutputFormat where
  | text
  | json
deriving DecidableEq, Repr

/-- Wire struct `ApiError`: optional message and code. -/
structure ApiError where
  message : Option String
  code : Option String
deriving DecidableEq, Repr

/-- Wire struct with the single optional `source` URL field. -/
structure Annotation where
  source : Option String
deriving DecidableEq, Repr

/-- Wire struct `SearchResult`: optional url and title. -/
structure SearchResult where
  url : Option String
  title : Option String
deriving DecidableEq, Repr

/-- Wire struct `Usage`: three optional token counters (u32 as Nat). -/
structure Usage where
  total_input_tokens : Option Nat
  total_output_tokens : Option Nat
  total_reasoning_tokens : Option Nat
deriving DecidableEq, Repr

/-- Wire struct `Output`: tagged by `type`, carrying the optional payload
fields; field `type` is Rust's raw-identifier field of the same name. -/
structure Output where
  type : String
  text : Option String
  annotations : Option (List Annotation)
  result : Option (List SearchResult)
deriving DecidableEq, Repr

/-- Wire struct `InteractionResponse`. -/
structure InteractionResponse where
  id : Option String
  status : Option String
  outputs : Option (List Output)
  usage : Option Usage
  error : Option ApiError
deriving DecidableEq, Repr

/-- Request tool entry: struct `Tool` with its single `type` field. -/
structure Tool where
  type : String
deriving DecidableEq, Repr

/-- Request struct `GenerationConfig` (u32 max tokens as Nat). -/
structure GenerationConfig where
  thinking_level : String
  max_output_tokens : Nat
deriving DecidableEq, Repr

/-- Request struct `InteractionRequest`; `input` is always built from
`serde_json::Value::String(query)`, so it is modelled as the string. -/
structure InteractionRequest where
  model : String
  input : String
  store : Bool
  system_instruction : Option String
  previous_interaction_id : Option String
  background : Option Bool
  generation_config : GenerationConfig
  tools : List Tool
deriving DecidableEq, Repr

/-- The request value constructed inside `create_interaction`
(main.rs lines 187-202), with the same field values. -/
def build_interaction_request (query thinking_level : String)
    (previous_interaction_id system_instruction : Option String)
    (max_tokens : Nat) (background : Bool) : InteractionRequest :=
  { model := MODEL
    input := query
    store := true
    system_instruction := system_instruction
    previous_interaction_id := previous_interaction_id
    background := if background then some true else none
    generation_config := { thinking_level := thinking_level, max_output_tokens := max_tokens }
    tools := [⟨"google_search"⟩, ⟨"url_context"⟩] }

/-- Value of the `location` response header as seen through
`HeaderValue::to_str`: either decodable text or opaque bytes. -/
inductive LocationValue where
  | text (value : String)
  | nonText
deriving DecidableEq, Repr

/-- Outcome of the single HEAD request of `resolve_redirect_url`:
the `reqwest` client builder may fail, the send may fail (connection
error or the 5 s timeout), or a response arrives carrying an optional
`location` header. -/
inductive HeadOutcome where
  | clientBuildError
  | sendError
  | ok (location : Option LocationValue)
deriving DecidableEq, Repr

/-- Shallow embedding of `resolve_redirect_url` (main.rs lines 252-272).
The network is an explicit parameter mapping the requested URL to the
outcome of the HEAD request; every failure path returns the input URL. -/
def resolve_redirect_url (net : String → HeadOutcome) (url : String) : String :=
  if ! str_contains url redirect_marker then url
  else
    match net url with
    | HeadOutcome.clientBuildError => url
    | HeadOutcome.sendError => url
    | HeadOutcome.ok none => url
    | HeadOutcome.ok (some LocationValue.nonText) => url
    | HeadOutcome.ok (some (LocationValue.text v)) => v

/-- A JSON value, the target of the serde serialization of the wire
structs (numbers restricted to the Nat fields actually present). -/
inductive Json where
  | null
  | bool (b : Bool)
  | num (n : Nat)
  | str (s : String)
  | arr (items : List Json)
  | obj (fields : List (String × Json))

/-- Lower-case hexadecimal digit, for JSON control-character escapes. -/
def hex_digit (n : Nat) : Char :=
  if n < 10 then Char.ofNat (48 + n) else Char.ofNat (87 + n)

/-- Four-digit hexadecimal rendering used by the `\u00XX` escapes. -/
def hex4 (n : Nat) : String :=
  String.mk [hex_digit (n / 4096 % 16), hex_digit (n / 256 % 16),
             hex_digit (n / 16 % 16), hex_digit (n % 16)]

/-- Escaping of one character inside a JSON string literal, following
serde_json's escaping rules. -/
def json_escape_char (c : Char) : String :=
  if c = '"' then "\\\""
  else if c = '\\' then "\\\\"
  else if c = '\n' then "\\n"
  else if c = '\r' then "\\r"
  else if c = '\t' then "\\t"
  else if c.toNat = 8 then "\\b"
  else if c.toNat = 12 then "\\f"
  else if c.toNat < 32 then "\\u" ++ hex4 c.toNat
  else String.singleton c

/-- A JSON string literal with quotes and escapes. -/
def json_escape (s : String) : String :=
  "\"" ++ String.join (s.toList.map json_escape_char) ++ "\""

/-- Indentation prefix used by serde_json's pretty formatter: two spaces
per nesting level. -/
def indent_str (depth : Nat) : String :=
  String.join (List.replicate depth "  ")

mutual

/-- Pretty renderer for `Json`, following `serde_json::to_string_pretty`:
two-space indentation, elements one per line. -/
def json_render_pretty : Nat → Json → String
  | _, Json.null => "null"
  | _, Json.bool true => "true"
  | _, Json.bool false => "false"
  | _, Json.num n => toString n
  | _, Json.str s => json_escape s
  | _, Json.arr [] => "[]"
  | d, Json.arr (x :: xs) =>
      "[\n" ++ render_items (d + 1) x xs ++ "\n" ++ indent_str d ++ "]"
  | _, Json.obj [] => "\x7b\x7d"
  | d, Json.obj (f :: fs) =>
      "\x7b\n" ++ render_fields (d + 1) f fs ++ "\n" ++ indent_str d ++ "\x7d"
termination_by _ j => sizeOf j

/-- Renders the comma-separated lines of a non-empty JSON array. -/
def render_items : Nat → Json → List Json → String
  | d, x, [] => indent_str d ++ json_render_pretty d x
  | d, x, y :: ys => indent_str d ++ json_render_pretty d x ++ ",\n" ++ render_items d y ys
termination_by _ x xs => sizeOf x + sizeOf xs

/-- Renders the comma-separated lines of a non-empty JSON object. -/
def render_fields : Nat → (String × Json) → List (String × Json) → String
  | d, (k, v), [] => indent_str d ++ json_escape k ++ ": " ++ json_render_pretty d v
  | d, (k, v), g :: gs =>
      indent_str d ++ json_escape k ++ ": " ++ json_render_pretty d v ++ ",\n" ++ render_fields d g gs
termination_by _ f fs => sizeOf f + sizeOf fs

end

/-- Serde encoding of an `Option String` field without skip attribute:
`None` serializes as `null`. -/
def opt_str : Option String → Json
  | some s => Json.str s
  | none => Json.null

/-- Serde encoding of an `Option` u32 field: `None` serializes as `null`. -/
def opt_num : Option Nat → Json
  | some n => Json.num n
  | none => Json.null

/-- Serde serialization of one `Annotation` value. -/
def annotation_to_json (a : Annotation) : Json :=
  Json.obj [("source", opt_str a.source)]

/-- Serde serialization of one `SearchResult` value. -/
def search_result_to_json (r : SearchResult) : Json :=
  Json.obj [("url", opt_str r.url), ("title", opt_str r.title)]

/-- Serde serialization of one `Usage` value. -/
def usage_to_json (u : Usage) : Json :=
  Json.obj [("total_input_tokens", opt_num u.total_input_tokens),
            ("total_output_tokens", opt_num u.total_output_tokens),
            ("total_reasoning_tokens", opt_num u.total_reasoning_tokens)]

/-- Serde serialization of one `ApiError` value. -/
def api_error_to_json (e : ApiError) : Json :=
  Json.obj [("message", opt_str e.message), ("code", opt_str e.code)]

/-- Serde serialization of one `Output` value; the raw-identifier field
serializes under the name "type". -/
def output_to_json (o : Output) : Json :=
  Json.obj [("type", Json.str o.type),
            ("text", opt_str o.text),
            ("annotations",
              match o.annotations with
              | some l => Json.arr (l.map annotation_to_json)
              | none => Json.null),
            ("result",
              match o.result with
              | some l => Json.arr (l.map search_result_to_json)
              | none => Json.null)]

/-- Serde serialization of an `InteractionResponse`, fields in
declaration order, `None` as `null` (no skip attributes on serialize). -/
def response_to_json (r : InteractionResponse) : Json :=
  Json.obj [("id", opt_str r.id),
            ("status", opt_str r.status),
            ("outputs",
              match r.outputs with
              | some os => Json.arr (os.map output_to_json)
              | none => Json.null),
            ("usage",
              match r.usage with
              | some u => usage_to_json u
              | none => Json.null),
            ("error",
              match r.error with
              | some e => api_error_to_json e
              | none => Json.null)]

/-- Serde serialization of an `InteractionRequest`: the three fields
with `skip_serializing_if = "Option::is_none"` are omitted when `None`,
everything else appears in declaration order. -/
def request_to_json (r : InteractionRequest) : Json :=
  Json.obj
    ([("model", Json.str r.model), ("input", Json.str r.input), ("store", Json.bool r.store)]
      ++ (match r.system_instruction with
          | some s => [("system_instruction", Json.str s)]
          | none => [])
      ++ (match r.previous_interaction_id with
          | some s => [("previous_interaction_id", Json.str s)]
          | none => [])
      ++ (match r.background with
          | some b => [("background", Json.bool b)]
          | none => [])
      ++ [("generation_config",
            Json.obj [("thinking_level", Json.str r.generation_config.thinking_level),
                      ("max_output_tokens", Json.num r.generation_config.max_output_tokens)]),
          ("tools", Json.arr (r.tools.map (fun t => Json.obj [("type", Json.str t.type)])))])

/-- The keys of a serialized JSON object (empty for non-objects). -/
def json_obj_keys : Json → List String
  | Json.obj fields => fields.map Prod.fst
  | _ => []

/-- Model of the `serde_json::to_string_pretty(response)` call: for the
derived `Serialize` impls of this data model serialization always
succeeds, producing the pretty-printed document. -/
def serde_to_string_pretty (r : InteractionResponse) : Except String String :=
  Except.ok (json_render_pretty 0 (response_to_json r))

/-- The "Extract text" loop of `format_response` (main.rs lines 289-298):
append the `text` field of every `Output` whose type tag is "text". -/
def extract_text (outputs : List Output) : String :=
  outputs.foldl
    (fun acc out =>
      if out.type == "text" then
        match out.text with
        | some t => acc ++ t
        | none => acc
      else acc)
    ""

/-- One step of the source-collection loop: push a `(title, url)` entry
unless an entry with the same url is already present (main.rs lines
308-311 and 320-323). -/
def push_candidate (sources : List (String × String)) (entry : String × String) :
    List (String × String) :=
  if sources.any (fun p => p.2 == entry.2) then sources else sources ++ [entry]

/-- The body of the "Collect sources" loop of `format_response`
(main.rs lines 303-327) for a single `Output`: first the annotations,
then — only for outputs tagged "google_search_result" — the search
results. -/
def collect_from_output (sources : List (String × String)) (out : Output) :
    List (String × String) :=
  let s1 :=
    match out.annotations with
    | some anns =>
        anns.foldl
          (fun acc ann =>
            match ann.source with
            | some src => push_candidate acc ("Source", src)
            | none => acc)
          sources
    | none => sources
  if out.type == "google_search_result" then
    match out.result with
    | some results =>
        results.foldl
          (fun acc r =>
            match r.url with
            | some url => push_candidate acc (r.title.getD "Untitled", url)
            | none => acc)
          s1
    | none => s1
  else s1

/-- The complete "Collect sources" scan over all outputs
(main.rs lines 300-329). -/
def collect_sources (outputs : List Output) : List (String × String) :=
  outputs.foldl collect_from_output []

/-- Model of the `futures::future::join_all` barrier (main.rs line 345):
the spawned resolutions complete in the order given by `sched` (a
permutation of the task indices), and the barrier re-pairs each result
with its original index, returning results in input order.  The `getD`
fallbacks are never reached for a well-formed schedule. -/
def join_all_results {α : Type} [Inhabited α] (tasks : List α) (sched : List Nat) : List α :=
  let completed := sched.map (fun j => (j, tasks.getD j default))
  (List.range tasks.length).map
    (fun i =>
      match completed.find? (fun p => p.1 == i) with
      | some p => p.2
      | none => tasks.getD i default)

/-- The numbered source lines of the Sources section (main.rs lines
348-350): `format!("{}. [{}]({})\n", i + 1, title, url)` over the
enumerated resolved list. -/
def render_sources_lines (resolved : List (String × String)) : String :=
  resolved.enum.foldl
    (fun acc p =>
      acc ++ (toString (p.1 + 1) ++ ". [" ++ p.2.1 ++ "](" ++ p.2.2 ++ ")\n"))
    ""

/-- The follow-up hint appended after the trailing separator
(main.rs lines 355-357); empty when the response has no id. -/
def follow_up_hint (id : Option String) : String :=
  match id with
  | some id => "To follow up, use interaction_id: " ++ id ++ "\n"
  | none => ""

/-- The text-mode arm of `format_response` (main.rs lines 277-360).
`net` gives the outcome of each HEAD request of the redirect resolver;
`sched` is the completion order of the concurrent resolutions. -/
def format_text (net : String → HeadOutcome) (sched : List Nat)
    (response : InteractionResponse) : String :=
  match response.error with
  | some error => "Error: " ++ (error.message.getD "Unknown error") ++ "\n"
  | none =>
    let body : String :=
      match response.outputs with
      | some outputs => extract_text outputs
      | none => ""
    let sources : List (String × String) :=
      match response.outputs with
      | some outputs => collect_sources outputs
      | none => []
    let withSources : String :=
      if sources.isEmpty then body
      else
        let resolved_sources :=
          join_all_results (sources.map (fun p => (p.1, resolve_redirect_url net p.2))) sched
        body ++ "\n\nSources:\n" ++ render_sources_lines resolved_sources
    withSources ++ "\n---\n" ++ follow_up_hint response.id

/-- Shallow embedding of `format_response` (main.rs lines 274-362).
`ser` is the `serde_json::to_string_pretty` call of the JSON arm, whose
`Result` is collapsed with `unwrap_or_default`; its canonical
instantiation is `serde_to_string_pretty`. -/
def format_response (ser : InteractionResponse → Except String String)
    (net : String → HeadOutcome) (sched : List Nat)
    (response : InteractionResponse) (format : OutputFormat) : String :=
  match format with
  | OutputFormat.json =>
      match ser response with
      | Except.ok s => s
      | Except.error _ => ""
  | OutputFormat.text => format_text net sched response

/-!
Specification-side definitions.  The following functions restate, in
direct-recursion style, what the spec says the renderer computes; the
theorems below compare them with the embedded code.
-/

/-- Spec reading of the answer body: the concatenation, in list order
and with no separators, of the `text` of every output tagged "text";
other outputs and absent `text` fields contribute nothing. -/
def concat_texts : List Output → String
  | [] => ""
  | out :: rest => (if out.type == "text" then out.text.getD "" else "") ++ concat_texts rest

/-- Spec reading of the candidates contributed by a list of annotations:
each present `source`, titled "Source". -/
def ann_candidates (anns : List Annotation) : List (String × String) :=
  anns.filterMap (fun a => a.source.map (fun s => ("Source", s)))

/-- Spec reading of the candidates contributed by a list of search
results: each present `url`, titled by its own `title` or "Untitled". -/
def result_candidates (rs : List SearchResult) : List (String × String) :=
  rs.filterMap (fun r => r.url.map (fun u => (r.title.getD "Untitled", u)))

/-- Spec reading of the candidate sources of one output: its annotation
candidates, then — only under the "google_search_result" tag — its
search-result candidates. -/
def candidates_of_output (out : Output) : List (String × String) :=
  (match out.annotations with
   | some anns => ann_candidates anns
   | none => [])
  ++ (if out.type == "google_search_result" then
        match out.result with
        | some rs => result_candidates rs
        | none => []
      else [])

/-- Spec reading of the full candidate list: one scan over all outputs
in order. -/
def candidates (outputs : List Output) : List (String × String) :=
  outputs.flatMap candidates_of_output

/-- Spec reading of deduplication keyed on URL only, first occurrence
(and hence first-seen title) kept. -/
def dedup_by_url (cands : List (String × String)) : List (String × String) :=
  cands.foldl push_candidate []

/-- Spec reading of the numbered Sources lines, starting at index `n`:
each entry rendered as "{index}. [{title}]({url})\n". -/
def numbered_lines : Nat → List (String × String) → String
  | _, [] => ""
  | n, (t, u) :: rest =>
      toString n ++ ". [" ++ t ++ "](" ++ u ++ ")\n" ++ numbered_lines (n + 1) rest

/-! Helper lemmas about the string-accumulating folds. -/

theorem foldl_text_step (os : List Output) (acc : String) :
    os.foldl
        (fun acc out =>
          if out.type == "text" then
            match out.text with
            | some t => acc ++ t
            | none => acc
          else acc)
        acc
      = acc ++ concat_texts os := by
  induction os generalizing acc with
  | nil => simp [concat_texts]
  | cons o rest ih =>
    cases ht : (o.type == "text") with
    | false =>
      simp only [List.foldl_cons, ht, Bool.false_eq_true, if_false, concat_texts, ih]
      simp
    | true =>
      cases hx : o.text with
      | none =>
        simp only [List.foldl_cons, ht, if_true, hx, concat_texts, ih]
        simp
      | some t =>
        simp only [List.foldl_cons, ht, if_true, hx, concat_texts, ih]
        simp [String.append_assoc]

theorem extract_text_eq (os : List Output) : extract_text os = concat_texts os := by
  unfold extract_text
  rw [foldl_text_step]
  simp

theorem foldl_lines_step (l : List (String × String)) (n : Nat) (acc : String) :
    (l.enumFrom n).foldl
        (fun acc p =>
          acc ++ (toString (p.1 + 1) ++ ". [" ++ p.2.1 ++ "](" ++ p.2.2 ++ ")\n"))
        acc
      = acc ++ numbered_lines (n + 1) l := by
  induction l generalizing n acc with
  | nil => simp [numbered_lines]
  | cons p rest ih =>
    cases p with
    | mk t u =>
      simp only [List.enumFrom_cons, List.foldl_cons, ih, numbered_lines]
      simp [String.append_assoc]

theorem render_sources_lines_eq (resolved : List (String × String)) :
    render_sources_lines resolved = numbered_lines 1 resolved := by
  unfold render_sources_lines List.enum
  rw [foldl_lines_step]
  simp

/-! Helper lemmas about `push_candidate` and the deduplicating fold. -/

theorem any_url_iff (l : List (String × String)) (u : String) :
    (l.any (fun p => p.2 == u) = true) ↔ u ∈ l.map Prod.snd := by
  simp only [List.any_eq_true, beq_iff_eq, List.mem_map]

theorem push_candidate_of_mem {l : List (String × String)} {e : String × String}
    (h : e.2 ∈ l.map Prod.snd) : push_candidate l e = l := by
  unfold push_candidate
  rw [if_pos ((any_url_iff l e.2).mpr h)]

theorem push_candidate_of_not_mem {l : List (String × String)} {e : String × String}
    (h : ¬ e.2 ∈ l.map Prod.snd) : push_candidate l e = l ++ [e] := by
  unfold push_candidate
  rw [if_neg (fun hc => h ((any_url_iff l e.2).mp hc))]

theorem snd_mem_push (l : List (String × String)) (e : String × String) :
    e.2 ∈ (push_candidate l e).map Prod.snd := by
  by_cases h : e.2 ∈ l.map Prod.snd
  · rw [push_candidate_of_mem h]; exact h
  · rw [push_candidate_of_not_mem h]; simp

theorem snd_push_superset {l : List (String × String)} {e : String × String} {u : String}
    (h : u ∈ l.map Prod.snd) : u ∈ (push_candidate l e).map Prod.snd := by
  by_cases hm : e.2 ∈ l.map Prod.snd
  · rwa [push_candidate_of_mem hm]
  · rw [push_candidate_of_not_mem hm]; simp [h]

theorem mem_snd_foldl_push (cands : List (String × String)) (acc : List (String × String))
    (u : String) :
    u ∈ (cands.foldl push_candidate acc).map Prod.snd
      ↔ u ∈ acc.map Prod.snd ∨ u ∈ cands.map Prod.snd := by
  induction cands generalizing acc with
  | nil => simp
  | cons c cs ih =>
    simp only [List.foldl_cons, ih, List.map_cons, List.mem_cons]
    by_cases hc : c.2 ∈ acc.map Prod.snd
    · rw [push_candidate_of_mem hc]
      constructor
      · rintro (h | h)
        · exact Or.inl h
        · exact Or.inr (Or.inr h)
      · rintro (h | h | h)
        · exact Or.inl h
        · exact Or.inl (h ▸ hc)
        · exact Or.inr h
    · rw [push_candidate_of_not_mem hc]
      simp only [List.map_append, List.map_cons, List.map_nil, List.mem_append,
        List.mem_cons, List.not_mem_nil, or_false]
      tauto

theorem nodup_foldl_push (cands : List (String × String)) (acc : List (String × String))
    (h : (acc.map Prod.snd).Nodup) :
    ((cands.foldl push_candidate acc).map Prod.snd).Nodup := by
  induction cands generalizing acc with
  | nil => simpa using h
  | cons c cs ih =>
    simp only [List.foldl_cons]
    by_cases hc : c.2 ∈ acc.map Prod.snd
    · rw [push_candidate_of_mem hc]; exact ih acc h
    · rw [push_candidate_of_not_mem hc]
      apply ih
      simp only [List.map_append, List.map_cons, List.map_nil]
      simp [List.nodup_append, h, hc]

theorem foldl_push_structure (cands : List (String × String)) (acc : List (String × String)) :
    ∃ s, cands.foldl push_candidate acc = acc ++ s ∧ s.Sublist cands := by
  induction cands generalizing acc with
  | nil => exact ⟨[], by simp, List.nil_sublist []⟩
  | cons c cs ih =>
    simp only [List.foldl_cons]
    by_cases hc : c.2 ∈ acc.map Prod.snd
    · rw [push_candidate_of_mem hc]
      obtain ⟨s, hs, hsub⟩ := ih acc
      exact ⟨s, hs, hsub.cons c⟩
    · rw [push_candidate_of_not_mem hc]
      obtain ⟨s, hs, hsub⟩ := ih (acc ++ [c])
      refine ⟨c :: s, ?_, hsub.cons₂ c⟩
      rw [hs, List.append_assoc, List.singleton_append]

theorem mem_foldl_push (cands : List (String × String)) (acc : List (String × String))
    (p : String × String) (h : p ∈ cands.foldl push_candidate acc) :
    p ∈ acc ∨ (¬ p.2 ∈ acc.map Prod.snd ∧ cands.find? (fun q => q.2 == p.2) = some p) := by
  induction cands generalizing acc with
  | nil => exact Or.inl (by simpa using h)
  | cons c cs ih =>
    simp only [List.foldl_cons] at h
    rcases ih (push_candidate acc c) h with hacc | ⟨hnot, hfind⟩
    · by_cases hc : c.2 ∈ acc.map Prod.snd
      · rw [push_candidate_of_mem hc] at hacc
        exact Or.inl hacc
      · rw [push_candidate_of_not_mem hc] at hacc
        rcases List.mem_append.mp hacc with hl | hr
        · exact Or.inl hl
        · right
          have hpc : p = c := by simpa using hr
          subst hpc
          exact ⟨hc, List.find?_cons_of_pos _ (by simp)⟩
    · right
      have hsup : ∀ u, u ∈ acc.map Prod.snd → u ∈ (push_candidate acc c).map Prod.snd :=
        fun u hu => snd_push_superset hu
      have hacc2 : ¬ p.2 ∈ acc.map Prod.snd := fun hu => hnot (hsup p.2 hu)
      have hcp : (c.2 == p.2) = false := by
        rw [beq_eq_false_iff_ne]
        intro hce
        exact hnot (hce ▸ snd_mem_push acc c)
      refine ⟨hacc2, ?_⟩
      rw [List.find?_cons_of_neg _ (by simp [hcp]), hfind]

/-! Helper lemmas relating the collection loops to the candidate lists. -/

theorem ann_candidates_cons_none {a : Annotation} (rest : List Annotation)
    (ha : a.source = none) : ann_candidates (a :: rest) = ann_candidates rest := by
  simp [ann_candidates, List.filterMap_cons, ha]

theorem ann_candidates_cons_some {a : Annotation} (rest : List Annotation) {s : String}
    (ha : a.source = some s) :
    ann_candidates (a :: rest) = ("Source", s) :: ann_candidates rest := by
  simp [ann_candidates, List.filterMap_cons, ha]

theorem result_candidates_cons_none {r : SearchResult} (rest : List SearchResult)
    (hu : r.url = none) : result_candidates (r :: rest) = result_candidates rest := by
  simp [result_candidates, List.filterMap_cons, hu]

theorem result_candidates_cons_some {r : SearchResult} (rest : List SearchResult) {u : String}
    (hu : r.url = some u) :
    result_candidates (r :: rest) = (r.title.getD "Untitled", u) :: result_candidates rest := by
  simp [result_candidates, List.filterMap_cons, hu]

theorem ann_foldl_eq (anns : List Annotation) (acc : List (String × String)) :
    anns.foldl
        (fun acc ann =>
          match ann.source with
          | some src => push_candidate acc ("Source", src)
          | none => acc)
        acc
      = (ann_candidates anns).foldl push_candidate acc := by
  induction anns generalizing acc with
  | nil => simp [ann_candidates]
  | cons a rest ih =>
    simp only [List.foldl_cons]
    cases ha : a.source with
    | none =>
      rw [ann_candidates_cons_none rest ha]
      simp only [ha]
      exact ih acc
    | some s =>
      rw [ann_candidates_cons_some rest ha]
      simp only [ha, List.foldl_cons]
      exact ih (push_candidate acc ("Source", s))

theorem result_foldl_eq (rs : List SearchResult) (acc : List (String × String)) :
    rs.foldl
        (fun acc r =>
          match r.url with
          | some url => push_candidate acc (r.title.getD "Untitled", url)
          | none => acc)
        acc
      = (result_candidates rs).foldl push_candidate acc := by
  induction rs generalizing acc with
  | nil => simp [result_candidates]
  | cons r rest ih =>
    simp only [List.foldl_cons]
    cases hu : r.url with
    | none =>
      rw [result_candidates_cons_none rest hu]
      simp only [hu]
      exact ih acc
    | some u =>
      rw [result_candidates_cons_some rest hu]
      simp only [hu, List.foldl_cons]
      exact ih (push_candidate acc (r.title.getD "Untitled", u))

theorem collect_from_output_eq (acc : List (String × String)) (out : Output) :
    collect_from_output acc out = (candidates_of_output out).foldl push_candidate acc := by
  unfold collect_from_output candidates_of_output
  rw [List.foldl_append]
  cases hann : out.annotations with
  | none =>
    cases ht : (out.type == "google_search_result") with
    | false => simp [ht]
    | true =>
      cases hres : out.result with
      | none => simp [ht]
      | some rs => simp [ht, result_foldl_eq]
  | some anns =>
    cases ht : (out.type == "google_search_result") with
    | false => simp [ht, ann_foldl_eq]
    | true =>
      cases hres : out.result with
      | none => simp [ht, ann_foldl_eq]
      | some rs => simp [ht, ann_foldl_eq, result_foldl_eq]

theorem collect_sources_general (os : List Output) (acc : List (String × String)) :
    os.foldl collect_from_output acc
      = (os.flatMap candidates_of_output).foldl push_candidate acc := by
  induction os generalizing acc with
  | nil => simp
  | cons o rest ih =>
    simp only [List.foldl_cons, List.flatMap_cons, List.foldl_append, ih,
      collect_from_output_eq]

theorem collect_sources_eq_dedup (os : List Output) :
    collect_sources os = dedup_by_url (candidates os) := by
  unfold collect_sources dedup_by_url candidates
  exact collect_sources_general os []

/-! Helper lemmas for the join-all barrier model. -/

theorem find_indexed {α : Type} (f : Nat → α) (js : List Nat) (i : Nat) (h : i ∈ js) :
    (js.map (fun j => (j, f j))).find? (fun p => p.1 == i) = some (i, f i) := by
  induction js with
  | nil => cases h
  | cons j rest ih =>
    by_cases hj : j = i
    · subst hj
      simp only [List.map_cons]
      exact List.find?_cons_of_pos _ (by simp)
    · have hm : i ∈ rest := by
        rcases List.mem_cons.mp h with h1 | h2
        · exact absurd h1.symm hj
        · exact h2
      simp only [List.map_cons]
      rw [List.find?_cons_of_neg _ (by simp [hj]), ih hm]

theorem getD_range_map {α : Type} [Inhabited α] (l : List α) :
    (List.range l.length).map (fun i => l.getD i default) = l := by
  induction l with
  | nil => simp
  | cons a rest ih =>
    rw [List.length_cons, List.range_succ_eq_map, List.map_cons, List.map_map]
    have hco : ((fun i => (a :: rest).getD i default) ∘ Nat.succ)
        = fun i => rest.getD i default := by
      funext i
      simp
    rw [hco, ih]
    simp

theorem join_all_results_of_perm {α : Type} [Inhabited α] (tasks : List α) (sched : List Nat)
    (h : sched.Perm (List.range tasks.length)) : join_all_results tasks sched = tasks := by
  unfold join_all_results
  have hmap : ∀ i ∈ List.range tasks.length,
      (match (sched.map (fun j => (j, tasks.getD j default))).find? (fun p => p.1 == i) with
       | some p => p.2
       | none => tasks.getD i default) = tasks.getD i default := by
    intro i hi
    have hi2 : i ∈ sched := h.mem_iff.mpr hi
    rw [find_indexed (fun j => tasks.getD j default) sched i hi2]
  rw [List.map_congr_left hmap, getD_range_map]

/-! Concrete fixtures used by closed theorems and witnesses. -/

/-- A network on which every HEAD request fails to send. -/
def no_net : String → HeadOutcome := fun _ => HeadOutcome.sendError

/-- An error response that also carries an id, a status and an output. -/
def err_resp_full : InteractionResponse :=
  ⟨some "abc123", some "completed", some [⟨"text", some "Body", none, none⟩], none,
    some ⟨none, none⟩⟩

/-- A minimal error response with message "boom". -/
def err_resp_boom : InteractionResponse :=
  ⟨none, none, none, none, some ⟨some "boom", none⟩⟩

/-- The all-absent response. -/
def empty_resp : InteractionResponse := ⟨none, none, none, none, none⟩

/-- A serializer that fails, exercising the `unwrap_or_default` arm. -/
def failing_ser : InteractionResponse → Except String String :=
  fun _ => Except.error "serialization failed"

/-- A text output carrying one annotation source. -/
def out_hi : Output := ⟨"text", some "Hi", some [⟨some "https://a.example"⟩], none⟩

/-- A search-result output carrying one titled result. -/
def out_bsite : Output :=
  ⟨"google_search_result", none, none, some [⟨some "https://b.example", some "B"⟩]⟩

/-- A successful response with two discovered sources and an id. -/
def resp_ab : InteractionResponse := ⟨some "abc123", none, some [out_hi, out_bsite], none, none⟩

/-- Outputs with a duplicated URL under two different titles. -/
def outs3 : List Output :=
  [⟨"google_search_result", none, none,
     some [⟨some "https://a.example", some "First"⟩, ⟨some "https://a.example", some "Second"⟩]⟩,
   ⟨"text", some "body", some [⟨some "https://a.example"⟩, ⟨some "https://b.example"⟩], none⟩]

/-- First redirect-wrapper URL. -/
def url_a : String := "https://vertexaisearch.cloud.google.com/grounding-api-redirect/a"

/-- Second, distinct redirect-wrapper URL. -/
def url_b : String := "https://vertexaisearch.cloud.google.com/grounding-api-redirect/b"

/-- Common redirect destination of both wrapper URLs. -/
def dest_url : String := "https://dest.example/page"

/-- A network that answers every HEAD request with a `location` header
pointing at `dest_url`. -/
def net9 : String → HeadOutcome := fun _ => HeadOutcome.ok (some (LocationValue.text dest_url))

/-- One text output annotated with both wrapper URLs. -/
def outs9 : List Output := [⟨"text", some "Hello", some [⟨some url_a⟩, ⟨some url_b⟩], none⟩]

/-- Response containing `outs9` and no id. -/
def resp9 : InteractionResponse := ⟨none, none, some outs9, none, none⟩

/-! The claim theorems. -/

/-- C2 (confirmed): for every response with a populated `error`, text-mode
rendering yields exactly "Error: \x7bmessage\x7d\n" with "Unknown error"
substituted for an absent message, regardless of outputs and id. -/
theorem text_mode_error_short_circuit
    (ser : InteractionResponse → Except String String) (net : String → HeadOutcome)
    (sched : List Nat) (response : InteractionResponse) (err : ApiError)
    (h : response.error = some err) :
    format_response ser net sched response OutputFormat.text
      = "Error: " ++ err.message.getD "Unknown error" ++ "\n" := by
  simp [format_response, format_text, h]

/-- Witness for C2: an error response that also carries an id, a status
and a text output still renders as the bare error line. -/
theorem text_mode_error_short_circuit_witness :
    format_response serde_to_string_pretty no_net [] err_resp_full OutputFormat.text
      = "Error: Unknown error\n" := by
  have h := text_mode_error_short_circuit serde_to_string_pretty no_net [] err_resp_full
    ⟨none, none⟩ rfl
  exact h.trans (by decide)

/-- C5 (confirmed): the redirect resolver is total; a URL without the
marker substring is returned unchanged independently of the network, a
marker URL survives every failure path unchanged, and only a text-decodable
`location` header produces a different result, namely its value. -/
theorem resolve_redirect_url_spec (net : String → HeadOutcome) (url : String) :
    (str_contains url redirect_marker = false →
       resolve_redirect_url net url = url
       ∧ ∀ net2, resolve_redirect_url net2 url = url)
    ∧ (net url = HeadOutcome.clientBuildError → resolve_redirect_url net url = url)
    ∧ (net url = HeadOutcome.sendError → resolve_redirect_url net url = url)
    ∧ (net url = HeadOutcome.ok none → resolve_redirect_url net url = url)
    ∧ (net url = HeadOutcome.ok (some LocationValue.nonText) →
        resolve_redirect_url net url = url)
    ∧ (∀ v, str_contains url redirect_marker = true →
        net url = HeadOutcome.ok (some (LocationValue.text v)) →
        resolve_redirect_url net url = v)
    ∧ (resolve_redirect_url net url = url
       ∨ ∃ v, net url = HeadOutcome.ok (some (LocationValue.text v))
           ∧ resolve_redirect_url net url = v) := by
  cases hm : str_contains url redirect_marker with
  | false => simp [resolve_redirect_url, hm]
  | true =>
    cases hn : net url with
    | clientBuildError => simp [resolve_redirect_url, hm, hn]
    | sendError => simp [resolve_redirect_url, hm, hn]
    | ok location =>
      cases location with
      | none => simp [resolve_redirect_url, hm, hn]
      | some v =>
        cases v with
        | nonText => simp [resolve_redirect_url, hm, hn]
        | text w => simp [resolve_redirect_url, hm, hn]

/-- Witness for C5: a marker URL whose request times out resolves to
itself; a marker URL with a good `location` header resolves to it; a
plain URL is untouched on every network. -/
theorem resolve_redirect_url_spec_witness :
    resolve_redirect_url no_net url_a = url_a
    ∧ resolve_redirect_url net9 url_a = dest_url
    ∧ resolve_redirect_url net9 "https://plain.example/" = "https://plain.example/" := by
  refine ⟨?_, ?_, ?_⟩
  · exact (resolve_redirect_url_spec no_net url_a).2.2.1 rfl
  · exact (resolve_redirect_url_spec net9 url_a).2.2.2.2.2.1 dest_url (by decide) rfl
  · exact ((resolve_redirect_url_spec net9 "https://plain.example/").1 (by decide)).1

/-- C10 (confirmed): the JSON arm is total and collapses a failed
serialization to the empty string, otherwise emitting the serialized
document unchanged. -/
theorem json_mode_unwrap_or_default
    (ser : InteractionResponse → Except String String) (net : String → HeadOutcome)
    (sched : List Nat) (response : InteractionResponse) :
    (∀ e, ser response = Except.error e →
        format_response ser net sched response OutputFormat.json = "")
    ∧ (∀ s, ser response = Except.ok s →
        format_response ser net sched response OutputFormat.json = s) := by
  constructor
  · intro e he
    simp [format_response, he]
  · intro s hs
    simp [format_response, hs]

/-- Witness for C10: a failing serializer renders as the empty string and
the canonical serializer renders the document. -/
theorem json_mode_unwrap_or_default_witness :
    format_response failing_ser no_net [] empty_resp OutputFormat.json = ""
    ∧ format_response serde_to_string_pretty no_net [] empty_resp OutputFormat.json
        = "\x7b\n  \"id\": null,\n  \"status\": null,\n  \"outputs\": null,\n  \"usage\": null,\n  \"error\": null\n\x7d" := by
  constructor
  · exact (json_mode_unwrap_or_default failing_ser no_net [] empty_resp).1
      "serialization failed" rfl
  · refine ((json_mode_unwrap_or_default serde_to_string_pretty no_net [] empty_resp).2
      _ rfl).trans ?_
    simp only [empty_resp, response_to_json, opt_str, json_render_pretty, render_fields,
      render_items]
    decide

/-- C6 (confirmed): every built request has `store = true` and exactly the
two tools web search then URL context, and `background = false` leaves no
"background" key in the serialized payload. -/
theorem build_request_spec (query thinking_level : String)
    (previous_interaction_id system_instruction : Option String) (max_tokens : Nat)
    (background : Bool) :
    (build_interaction_request query thinking_level previous_interaction_id
        system_instruction max_tokens background).store = true
    ∧ (build_interaction_request query thinking_level previous_interaction_id
        system_instruction max_tokens background).tools
        = [⟨"google_search"⟩, ⟨"url_context"⟩]
    ∧ (background = false →
        ¬ "background" ∈ json_obj_keys (request_to_json (build_interaction_request query
            thinking_level previous_interaction_id system_instruction max_tokens background))) := by
  refine ⟨rfl, rfl, ?_⟩
  intro hb
  subst hb
  unfold build_interaction_request request_to_json json_obj_keys
  cases system_instruction <;> cases previous_interaction_id <;> simp

/-- Witness for C6 at concrete arguments. -/
theorem build_request_spec_witness :
    (build_interaction_request "q" "medium" none none 8192 false).store = true
    ∧ (build_interaction_request "q" "medium" none none 8192 false).tools
        = [⟨"google_search"⟩, ⟨"url_context"⟩]
    ∧ ¬ "background" ∈ json_obj_keys (request_to_json
        (build_interaction_request "q" "medium" none none 8192 false)) := by
  have h := build_request_spec "q" "medium" none none 8192 false
  exact ⟨h.1, h.2.1, h.2.2 rfl⟩

/-- C1 counterexample: on an error response, JSON mode emits the JSON
serialization of the whole response, not the error text line. -/
theorem json_mode_error_counterexample :
    format_response serde_to_string_pretty no_net [] err_resp_boom OutputFormat.json
      = "\x7b\n  \"id\": null,\n  \"status\": null,\n  \"outputs\": null,\n  \"usage\": null,\n  \"error\": \x7b\n    \"message\": \"boom\",\n    \"code\": null\n  \x7d\n\x7d"
    ∧ format_response serde_to_string_pretty no_net [] err_resp_boom OutputFormat.json
      ≠ "Error: boom\n" := by
  have h1 : format_response serde_to_string_pretty no_net [] err_resp_boom OutputFormat.json
      = "\x7b\n  \"id\": null,\n  \"status\": null,\n  \"outputs\": null,\n  \"usage\": null,\n  \"error\": \x7b\n    \"message\": \"boom\",\n    \"code\": null\n  \x7d\n\x7d" := by
    simp only [format_response, serde_to_string_pretty, err_resp_boom, response_to_json,
      api_error_to_json, opt_str, json_render_pretty, render_fields, render_items]
    decide
  refine ⟨h1, ?_⟩
  rw [h1]
  decide

/-- C1 amended: the error short-circuit applies only inside the text arm;
in JSON mode an error response is serialized like any other response. -/
theorem format_error_by_mode (net : String → HeadOutcome) (sched : List Nat)
    (response : InteractionResponse) (err : ApiError) (h : response.error = some err) :
    format_response serde_to_string_pretty net sched response OutputFormat.text
      = "Error: " ++ err.message.getD "Unknown error" ++ "\n"
    ∧ format_response serde_to_string_pretty net sched response OutputFormat.json
      = json_render_pretty 0 (response_to_json response) := by
  constructor
  · simp [format_response, format_text, h]
  · simp [format_response, serde_to_string_pretty]

/-- Witness for the amended C1 at the "boom" error response. -/
theorem format_error_by_mode_witness :
    format_response serde_to_string_pretty no_net [] err_resp_boom OutputFormat.text
      = "Error: boom\n"
    ∧ format_response serde_to_string_pretty no_net [] err_resp_boom OutputFormat.json
      = "\x7b\n  \"id\": null,\n  \"status\": null,\n  \"outputs\": null,\n  \"usage\": null,\n  \"error\": \x7b\n    \"message\": \"boom\",\n    \"code\": null\n  \x7d\n\x7d" := by
  have h := format_error_by_mode no_net [] err_resp_boom ⟨some "boom", none⟩ rfl
  refine ⟨h.1.trans (by decide), h.2.trans ?_⟩
  simp only [err_resp_boom, response_to_json, api_error_to_json, opt_str, json_render_pretty,
    render_fields, render_items]
  decide

/-- C3 (confirmed): the collected source list is the URL-keyed
deduplication of the candidate scan: its URLs are pairwise distinct, it
is a subsequence of the candidates (first-occurrence order), each kept
entry is the first candidate with its URL (first-seen title wins), and
its length is the number of distinct candidate URLs. -/
theorem collect_sources_spec (outputs : List Output) :
    collect_sources outputs = dedup_by_url (candidates outputs)
    ∧ ((collect_sources outputs).map Prod.snd).Nodup
    ∧ (collect_sources outputs).Sublist (candidates outputs)
    ∧ (∀ p ∈ collect_sources outputs,
        (candidates outputs).find? (fun q => q.2 == p.2) = some p)
    ∧ (collect_sources outputs).length
        = ((candidates outputs).map Prod.snd).toFinset.card := by
  have heq := collect_sources_eq_dedup outputs
  refine ⟨heq, ?_, ?_, ?_, ?_⟩
  · rw [heq]
    exact nodup_foldl_push _ [] (by simp)
  · rw [heq]
    obtain ⟨s, hs, hsub⟩ := foldl_push_structure (candidates outputs) []
    unfold dedup_by_url
    rw [hs]
    simpa using hsub
  · intro p hp
    rw [heq] at hp
    rcases mem_foldl_push (candidates outputs) [] p hp with h0 | ⟨_, hf⟩
    · exact absurd h0 (List.not_mem_nil p)
    · exact hf
  · rw [heq]
    have hnd : ((dedup_by_url (candidates outputs)).map Prod.snd).Nodup :=
      nodup_foldl_push _ [] (by simp)
    have hset : ((dedup_by_url (candidates outputs)).map Prod.snd).toFinset
        = ((candidates outputs).map Prod.snd).toFinset := by
      apply Finset.ext
      intro u
      simp only [List.mem_toFinset]
      have hm := mem_snd_foldl_push (candidates outputs) [] u
      unfold dedup_by_url
      simpa using hm
    rw [← List.length_map (dedup_by_url (candidates outputs)) Prod.snd,
      ← List.toFinset_card_of_nodup hnd, hset]

/-- Witness for C3 on outputs with a duplicated URL: the first title
wins, the duplicate is dropped, and the count equals the distinct URLs. -/
theorem collect_sources_spec_witness :
    collect_sources outs3 = [("First", "https://a.example"), ("Source", "https://b.example")]
    ∧ (collect_sources outs3).length = 2
    ∧ (candidates outs3).find? (fun q => q.2 == "https://a.example")
        = some ("First", "https://a.example") := by
  have h := collect_sources_spec outs3
  refine ⟨h.1.trans (by decide), (h.2.2.2.2).trans (by decide), ?_⟩
  have hf := h.2.2.2.1 ("First", "https://a.example") (by decide)
  exact hf

/-- C4 (confirmed): for a non-empty deduplicated source list, the text
output appends a Sources section whose 1-based numbered entries follow
discovery order, pairing each title with the resolution of its own URL,
for every completion schedule of the concurrent resolutions. -/
theorem sources_section_order (ser : InteractionResponse → Except String String)
    (net : String → HeadOutcome) (sched : List Nat) (response : InteractionResponse)
    (outputs : List Output) (h1 : response.error = none)
    (h2 : response.outputs = some outputs) (h3 : collect_sources outputs ≠ [])
    (h4 : sched.Perm (List.range (collect_sources outputs).length)) :
    format_response ser net sched response OutputFormat.text
      = extract_text outputs ++ "\n\nSources:\n"
        ++ numbered_lines 1
            ((collect_sources outputs).map (fun p => (p.1, resolve_redirect_url net p.2)))
        ++ "\n---\n" ++ follow_up_hint response.id := by
  simp only [format_response, format_text, h1, h2]
  have hne : ¬ (collect_sources outputs).isEmpty = true := by
    simp [List.isEmpty_iff, h3]
  rw [if_neg hne, join_all_results_of_perm _ _ (by simpa using h4), render_sources_lines_eq]

/-- Witness for C4 with an out-of-order completion schedule. -/
theorem sources_section_order_witness :
    format_response serde_to_string_pretty no_net [1, 0] resp_ab OutputFormat.text
      = "Hi\n\nSources:\n1. [Source](https://a.example)\n2. [B](https://b.example)\n\n---\nTo follow up, use interaction_id: abc123\n" := by
  have h := sources_section_order serde_to_string_pretty no_net [1, 0] resp_ab
    [out_hi, out_bsite] rfl rfl (by decide) (by decide)
  exact h.trans (by decide)

/-- C7 (confirmed): the text-mode answer body is the in-order
concatenation, with no separators, of the `text` of the outputs tagged
"text", other outputs contributing nothing. -/
theorem text_body_concat (ser : InteractionResponse → Except String String)
    (net : String → HeadOutcome) (sched : List Nat) (response : InteractionResponse)
    (outputs : List Output) (h1 : response.error = none)
    (h2 : response.outputs = some outputs) :
    extract_text outputs = concat_texts outputs
    ∧ ∃ tail, format_response ser net sched response OutputFormat.text
        = concat_texts outputs ++ tail := by
  refine ⟨extract_text_eq outputs, ?_⟩
  simp only [format_response, format_text, h1, h2]
  by_cases hs : (collect_sources outputs).isEmpty = true
  · refine ⟨"\n---\n" ++ follow_up_hint response.id, ?_⟩
    rw [if_pos hs, extract_text_eq, String.append_assoc]
  · refine ⟨"\n\nSources:\n"
      ++ render_sources_lines (join_all_results
          ((collect_sources outputs).map (fun p => (p.1, resolve_redirect_url net p.2))) sched)
      ++ ("\n---\n" ++ follow_up_hint response.id), ?_⟩
    rw [if_neg hs, extract_text_eq]
    simp [String.append_assoc]

/-- Witness for C7: the body of `resp_ab` is the text of its single
"text" output. -/
theorem text_body_concat_witness :
    extract_text [out_hi, out_bsite] = concat_texts [out_hi, out_bsite]
    ∧ concat_texts [out_hi, out_bsite] = "Hi" := by
  have h := text_body_concat serde_to_string_pretty no_net [] resp_ab [out_hi, out_bsite]
    rfl rfl
  exact ⟨h.1, by decide⟩

/-- C8 (confirmed): every error-free text rendering ends with the
trailing separator followed by the follow-up hint (empty when there is
no id), the separator appearing even without outputs, so the text output
is never empty. -/
theorem trailing_separator_and_hint (ser : InteractionResponse → Except String String)
    (net : String → HeadOutcome) (sched : List Nat) (response : InteractionResponse)
    (h : response.error = none) :
    (∃ pre, format_response ser net sched response OutputFormat.text
        = pre ++ ("\n---\n" ++ follow_up_hint response.id))
    ∧ (response.outputs = none →
        format_response ser net sched response OutputFormat.text
          = "\n---\n" ++ follow_up_hint response.id)
    ∧ (response.outputs = some [] →
        format_response ser net sched response OutputFormat.text
          = "\n---\n" ++ follow_up_hint response.id)
    ∧ format_response ser net sched response OutputFormat.text ≠ "" := by
  have hsplit : ∃ pre, format_response ser net sched response OutputFormat.text
      = pre ++ ("\n---\n" ++ follow_up_hint response.id) := by
    simp only [format_response, format_text, h]
    exact ⟨_, String.append_assoc _ _ _⟩
  refine ⟨hsplit, ?_, ?_, ?_⟩
  · intro h2
    simp [format_response, format_text, h, h2]
  · intro h2
    simp [format_response, format_text, h, h2, extract_text, collect_sources]
  · intro heq
    obtain ⟨pre, hpre⟩ := hsplit
    rw [hpre] at heq
    have hlen := congrArg String.length heq
    rw [String.length_append, String.length_append] at hlen
    have h5 : ("\n---\n").length = 5 := rfl
    rw [h5] at hlen
    simp [String.length_empty] at hlen

/-- Witness for C8: a response with no outputs and no id still renders
as the bare separator. -/
theorem trailing_separator_and_hint_witness :
    format_response serde_to_string_pretty no_net [] empty_resp OutputFormat.text
      = "\n---\n" ++ follow_up_hint none
    ∧ format_response serde_to_string_pretty no_net [] empty_resp OutputFormat.text ≠ "" := by
  have h := trailing_separator_and_hint serde_to_string_pretty no_net [] empty_resp rfl
  exact ⟨h.2.1 rfl, h.2.2.2⟩

/-- C9 (confirmed): deduplication happens on the URLs as discovered,
before redirect resolution — two distinct wrapper URLs resolving to the
same destination both survive, and the rendered list shows two entries
with the same resolved URL. -/
theorem dedup_before_resolution :
    url_a ≠ url_b
    ∧ resolve_redirect_url net9 url_a = dest_url
    ∧ resolve_redirect_url net9 url_b = dest_url
    ∧ collect_sources outs9 = [("Source", url_a), ("Source", url_b)]
    ∧ format_response serde_to_string_pretty net9 [0, 1] resp9 OutputFormat.text
        = "Hello\n\nSources:\n1. [Source](https://dest.example/page)\n2. [Source](https://dest.example/page)\n\n---\n" := by
  refine ⟨by decide, by decide, by decide, by decide, by decide⟩

end GeminiAsk
